import Mathlib

/-!
Verification of the iam-client-lib authenticated retrying request executor
and the `readyToBeRegisteredOnchain` claim type guard.

The claim type guard (`readyToBeRegisteredOnchain`) is embedded directly from
`src/modules/claims/claims.types.ts`.  The cache-client executor
(`makeRetryRequest`, `authenticate`, `refreshToken`, `isAuthenticated`, and
the single-flight authentication coordinator) has no implementation under
`src/` — only its test suite and its interface are present — so those
components are modelled from the specification (sections 4.2 to 4.5 and 8 of
the spec), as noted on each definition.
-/

namespace IamClientLib

/-! ## JavaScript value model for the claim type guard -/

/-- A JavaScript runtime value, as far as `readyToBeRegisteredOnchain`
inspects it: primitives plus objects given by their own enumerable
string-keyed properties (the ones `Object.keys` reports). -/
inductive JsValue where
  | jsNull : JsValue
  | jsUndefined : JsValue
  | jsBool (b : Bool) : JsValue
  | jsNum (n : Int) : JsValue
  | jsStr (s : String) : JsValue
  | jsObj (fields : List (String × JsValue)) : JsValue
deriving Repr

/-- JavaScript truthiness test: `!claim` in the source is `true` exactly when
the value is falsy (`null`, `undefined`, `false`, `0`, the empty string). -/
def jsFalsy : JsValue → Bool
  | .jsNull => true
  | .jsUndefined => true
  | .jsBool b => !b
  | .jsNum n => n == 0
  | .jsStr s => s == ""
  | .jsObj _ => false

/-- The result of the JavaScript `typeof claim` operator being the string
comparing equal to the text t-y-p-e-o-f object: true for objects and for
`null`, false for every other primitive. -/
def jsTypeofIsObject : JsValue → Bool
  | .jsNull => true
  | .jsObj _ => true
  | _ => false

/-- `Object.keys` of an object value: its own property names in order. -/
def jsKeys : List (String × JsValue) → List String :=
  fun fields => fields.map Prod.fst

/-- The required property names listed in `readyToBeRegisteredOnchain`
(`src/modules/claims/claims.types.ts`, part_002 lines 85 to 91). -/
def requiredOnchainProps : List String :=
  ["claimType", "claimTypeVersion", "subject", "onChainProof", "acceptedBy"]

/-- Embedding of `readyToBeRegisteredOnchain` from
`src/modules/claims/claims.types.ts` (part_002 lines 75 to 95): reject falsy
inputs, reject non-objects, then check that every required property name
occurs among the own keys of the object. -/
def readyToBeRegisteredOnchain (claim : JsValue) : Bool :=
  if jsFalsy claim then false
  else if !jsTypeofIsObject claim then false
  else
    match claim with
    | .jsObj fields => requiredOnchainProps.all (fun p => (jsKeys fields).contains p)
    | _ => false

/-! ## Retry classifier and request executor (modelled from the spec) -/

/-- Modelled from the spec: the failure of one outbound attempt, as the Retry
Classifier of section 4.4 distinguishes them — an HTTP status response, a
transport-level failure (connection refused, reset, timeout, DNS), or a
handler-level error thrown while processing a successful transport response.
For the first two the flag records whether the failing call targeted an
authentication endpoint (login, refresh, or status). -/
inductive ReqError where
  | http (status : Nat) (authEndpoint : Bool) : ReqError
  | transport (authEndpoint : Bool) : ReqError
  | handler : ReqError
deriving DecidableEq, Repr

/-- Whether the failing call targeted an authentication endpoint. -/
def ReqError.targetsAuthEndpoint : ReqError → Bool
  | .http _ a => a
  | .transport a => a
  | .handler => false

/-- Modelled from the spec: the per-attempt retry decision of section 4.4. -/
inductive RetryDecision where
  | retryNow : RetryDecision
  | reauthThenRetry : RetryDecision
  | failNow : RetryDecision
deriving DecidableEq, Repr

/-- The retryable status allowlist of the decision table in section 4.4. -/
def retryableStatuses : List Nat :=
  [408, 411, 412, 425, 426, 500, 501, 502, 503, 504, 505, 506, 510, 511]

/-- Modelled from the spec: the Retry Classifier decision table of section
4.4, rows in order — auth-endpoint calls fail, 401 reauthenticates then
retries, the allowlisted statuses retry, transport errors retry,
everything else (including handler-level errors) fails. -/
def classifyError (e : ReqError) : RetryDecision :=
  match e with
  | .handler => .failNow
  | .transport a => if a then .failNow else .retryNow
  | .http s a =>
      if a then .failNow
      else if s == 401 then .reauthThenRetry
      else if retryableStatuses.contains s then .retryNow
      else .failNow

/-- Modelled from the spec: the terminal outcomes of the Request Executor of
sections 4.5 and 7 — success, a classified-permanent failure surfaced as
`NonRetryableRequestError` preserving the original error, an authentication
failure replacing the original 401, or `RetryExhausted` when the attempt
ceiling is reached. -/
inductive ExecResult (α : Type) where
  | ok (v : α) : ExecResult α
  | nonRetryable (e : ReqError) : ExecResult α
  | authFailed (status : Nat) : ExecResult α
  | retryExhausted : ExecResult α
deriving DecidableEq, Repr

/-- Modelled from the spec: the Request Executor loop of section 4.5 over a
deterministic environment.  `attempt k` is the outcome of the k-th invocation
of the caller-supplied request function; `auth a` is the outcome of the a-th
`ensureAuthenticated` round trip (its error is an HTTP status).  `k` and `a`
count invocations already made; `fuel` is the remaining attempt budget of the
configurable ceiling demanded by sections 4.5 and 7.  The result carries the
final attempt and authentication counters. -/
def runRetryAux {α : Type} (attempt : Nat → Except ReqError α)
    (auth : Nat → Except Nat Unit) (k a fuel : Nat) :
    ExecResult α × Nat × Nat :=
  match fuel with
  | 0 => (.retryExhausted, k, a)
  | fuel + 1 =>
    match attempt k with
    | .ok v => (.ok v, k + 1, a)
    | .error e =>
      match classifyError e with
      | .failNow => (.nonRetryable e, k + 1, a)
      | .retryNow => runRetryAux attempt auth (k + 1) a fuel
      | .reauthThenRetry =>
        match auth a with
        | .ok _ => runRetryAux attempt auth (k + 1) (a + 1) fuel
        | .error s => (.authFailed s, k + 1, a + 1)

/-- Modelled from the spec: `makeRetryRequest` — run the executor loop from
fresh counters with the configured attempt ceiling. -/
def makeRetryRequest {α : Type} (attempt : Nat → Except ReqError α)
    (auth : Nat → Except Nat Unit) (ceiling : Nat) :
    ExecResult α × Nat × Nat :=
  runRetryAux attempt auth 0 0 ceiling

/-! ## Authenticator and credential store (modelled from the spec) -/

/-- The access and refresh token pair returned by the login and refresh
endpoints (the `AuthTokens` shape of the test suite). -/
structure AuthTokens where
  token : String
  refreshToken : String
deriving DecidableEq, Repr

/-- Modelled from the spec: the Credential Store of section 4.1 — the access
token installed as the bearer header and the stored refresh token, each
possibly absent. -/
structure ClientState where
  accessToken : Option String
  refresh_token : Option String
deriving DecidableEq, Repr

/-- One network round trip made by the Authenticator, for counting and
ordering calls: the refresh endpoint, the login endpoint, or the status
endpoint. -/
inductive NetCall where
  | refreshReq : NetCall
  | loginReq : NetCall
  | statusReq : NetCall
deriving DecidableEq, Repr

/-- Modelled from the spec: the remote identity service of section 6 as a
deterministic environment — the reply of the refresh endpoint given a refresh
token, the reply of the login endpoint, the user field of the status
endpoint, and the DID of the Signer capability.  Errors are HTTP statuses. -/
structure AuthEnv where
  refreshReply : String → Except Nat AuthTokens
  loginReply : Except Nat AuthTokens
  statusReply : Except Nat (Option String)
  signerDid : String

/-- Modelled from the spec: a successful Authenticator outcome replaces the
stored credential pair wholesale (section 3, total replacement). -/
def setTokens (_st : ClientState) (t : AuthTokens) : ClientState :=
  { accessToken := some t.token, refresh_token := some t.refreshToken }

/-- Modelled from the spec: the boolean the status probe of section 4.2
computes — true exactly when the reply carries the expected subject DID. -/
def isAuthenticatedReply (env : AuthEnv) : Bool :=
  match env.statusReply with
  | .ok (some u) => u == env.signerDid
  | .ok none => false
  | .error _ => false

/-- Modelled from the spec: `isAuthenticated()` of section 4.2 — one status
round trip; true only when the reply identifies the Signer DID; false on
mismatch, empty identity, or non-success, without propagating an error. -/
def isAuthenticated (env : AuthEnv) : Bool × List NetCall :=
  (isAuthenticatedReply env, [.statusReq])

/-- Modelled from the spec: `refreshToken()` — with no stored refresh token it
resolves empty making no network request (the test suite behavior at
part_004 lines 118 to 131); otherwise one refresh round trip whose
non-success reply is raised as its status. -/
def refreshToken (env : AuthEnv) (st : ClientState) :
    Except Nat (Option AuthTokens) × List NetCall :=
  match st.refresh_token with
  | none => (.ok none, [])
  | some rt =>
    match env.refreshReply rt with
    | .ok t => (.ok (some t), [.refreshReq])
    | .error s => (.error s, [.refreshReq])

/-- Modelled from the spec: the login half of the Authenticator of section
4.2 — one login round trip; on success the returned credentials replace the
store; on failure the store is untouched and the status is raised. -/
def doLogin (env : AuthEnv) (st : ClientState) :
    Except Nat Unit × ClientState × List NetCall :=
  match env.loginReply with
  | .ok t => (.ok (), setTokens st t, [.loginReq])
  | .error s => (.error s, st, [.loginReq])

/-- Modelled from the spec: `authenticate()` with the refresh-first policy of
section 4.2 — with no stored refresh token, log in directly; otherwise try
the refresh endpoint first; on a successful refresh install the new tokens
and probe the status endpoint, falling back to login when the probe does not
authenticate the expected subject; on a failed refresh fall back to login
with the store untouched (a failed refresh never clears the stored refresh
token). -/
def authenticate (env : AuthEnv) (st : ClientState) :
    Except Nat Unit × ClientState × List NetCall :=
  match st.refresh_token with
  | none => doLogin env st
  | some rt =>
    match env.refreshReply rt with
    | .error _ =>
      let (r, st1, c) := doLogin env st
      (r, st1, .refreshReq :: c)
    | .ok t =>
      let st1 := setTokens st t
      if isAuthenticatedReply env then (.ok (), st1, [.refreshReq, .statusReq])
      else
        let (r, st2, c) := doLogin env st1
        (r, st2, .refreshReq :: .statusReq :: c)

/-! ## Single-flight coordination machine (modelled from the spec) -/

/-- Modelled from the spec: the phase of one logical request inside the
Request Executor during the concurrent-401 scenario of sections 4.3 and 8 —
not yet attempted, holding a 401 from its first attempt, subscribed to the
in-flight authentication, released and ready to retry, or finished
successfully. -/
inductive ReqPhase where
  | begun : ReqPhase
  | gotUnauthorized : ReqPhase
  | waiting : ReqPhase
  | readyRetry : ReqPhase
  | finished : ReqPhase
deriving DecidableEq, Repr

/-- Modelled from the spec: the process-wide state of section 5 — the phase
of every logical request, the single-flight in-progress marker of section
4.3, and the number of Authenticator invocations started so far. -/
structure SysState where
  reqs : List ReqPhase
  inFlight : Bool
  authCount : Nat
deriving DecidableEq, Repr

/-- A scheduler event: advance one logical request by one step, or settle the
in-flight authentication round trip. -/
inductive SysEvent where
  | reqStep (i : Nat) : SysEvent
  | authDone : SysEvent
deriving DecidableEq, Repr

/-- Modelled from the spec: one step of logical request `i` — its first
attempt comes back 401; holding a 401 it calls `ensureAuthenticated`, joining
the in-flight authentication when one exists and otherwise starting the
single authentication round trip (section 4.3); once released it re-invokes
its request, which now succeeds.  A subscribed request cannot advance on its
own. -/
def stepReq (s : SysState) (i : Nat) : Option SysState :=
  match s.reqs.get? i with
  | none => none
  | some ph =>
    match ph with
    | .begun => some { s with reqs := s.reqs.set i .gotUnauthorized }
    | .gotUnauthorized =>
      if s.inFlight then some { s with reqs := s.reqs.set i .waiting }
      else
        some { reqs := s.reqs.set i .waiting, inFlight := true,
               authCount := s.authCount + 1 }
    | .waiting => none
    | .readyRetry => some { s with reqs := s.reqs.set i .finished }
    | .finished => none

/-- Release every request subscribed to the settled authentication. -/
def releaseWaiters (l : List ReqPhase) : List ReqPhase :=
  l.map (fun ph => if ph = .waiting then .readyRetry else ph)

/-- Modelled from the spec: settlement of the in-flight authentication
(section 4.3) — enabled only while one is running; clears the in-progress
marker and propagates the (successful) outcome to every waiter at once. -/
def stepAuthDone (s : SysState) : Option SysState :=
  if s.inFlight then
    some { reqs := releaseWaiters s.reqs, inFlight := false,
           authCount := s.authCount }
  else none

/-- Dispatch one scheduler event. -/
def stepEvent (s : SysState) : SysEvent → Option SysState
  | .reqStep i => stepReq s i
  | .authDone => stepAuthDone s

/-- Run a schedule of events, failing when a disabled event is scheduled. -/
def runEvents (s : SysState) : List SysEvent → Option SysState
  | [] => some s
  | e :: es =>
    match stepEvent s e with
    | none => none
    | some s1 => runEvents s1 es

/-- The initial state of the scenario: `n` logical requests about to make
their first attempt, no authentication in progress, none started. -/
def initSys (n : Nat) : SysState :=
  { reqs := List.replicate n .begun, inFlight := false, authCount := 0 }

/-- Whether no scheduler event is enabled: the schedule is maximal at this
state. -/
def noEventEnabled (s : SysState) : Bool :=
  !s.inFlight && s.reqs.all (fun ph => ph == .waiting || ph == .finished)

/-! ## Lemmas about the retry classifier -/

theorem classify_retryable {s : Nat} (h : s ∈ retryableStatuses) :
    classifyError (.http s false) = .retryNow := by
  fin_cases h <;> rfl

theorem retryable_ne_401 {s : Nat} (h : s ∈ retryableStatuses) : s ≠ 401 := by
  fin_cases h <;> decide

theorem classify_other {s : Nat} (h1 : s ∉ retryableStatuses) (h2 : s ≠ 401) :
    classifyError (.http s false) = .failNow := by
  have hb : (s == 401) = false := by simpa using h2
  have hc : retryableStatuses.contains s = false := by simpa using h1
  simp [classifyError, hb, hc, h1]

theorem classify_auth_endpoint (e : ReqError) (h : e.targetsAuthEndpoint = true) :
    classifyError e = .failNow := by
  cases e with
  | http s a => cases a <;> simp_all [ReqError.targetsAuthEndpoint, classifyError]
  | transport a => cases a <;> simp_all [ReqError.targetsAuthEndpoint, classifyError]
  | handler => simp_all [ReqError.targetsAuthEndpoint]

/-! ## Single-step lemmas about the executor loop -/

theorem runRetryAux_ok {α : Type} {attempt : Nat → Except ReqError α}
    {auth : Nat → Except Nat Unit} {k a n : Nat} {v : α}
    (h : attempt k = .ok v) :
    runRetryAux attempt auth k a (n + 1) = (.ok v, k + 1, a) := by
  simp [runRetryAux, h]

theorem runRetryAux_fail {α : Type} {attempt : Nat → Except ReqError α}
    {auth : Nat → Except Nat Unit} {k a n : Nat} {e : ReqError}
    (h : attempt k = .error e) (hc : classifyError e = .failNow) :
    runRetryAux attempt auth k a (n + 1) = (.nonRetryable e, k + 1, a) := by
  simp [runRetryAux, h, hc]

theorem runRetryAux_retry {α : Type} {attempt : Nat → Except ReqError α}
    {auth : Nat → Except Nat Unit} {k a n : Nat} {e : ReqError}
    (h : attempt k = .error e) (hc : classifyError e = .retryNow) :
    runRetryAux attempt auth k a (n + 1) = runRetryAux attempt auth (k + 1) a n := by
  simp [runRetryAux, h, hc]

theorem runRetryAux_reauth_ok {α : Type} {attempt : Nat → Except ReqError α}
    {auth : Nat → Except Nat Unit} {k a n : Nat} {e : ReqError}
    (h : attempt k = .error e) (hc : classifyError e = .reauthThenRetry)
    (ha : auth a = .ok ()) :
    runRetryAux attempt auth k a (n + 1) =
      runRetryAux attempt auth (k + 1) (a + 1) n := by
  simp [runRetryAux, h, hc, ha]

theorem runRetryAux_reauth_err {α : Type} {attempt : Nat → Except ReqError α}
    {auth : Nat → Except Nat Unit} {k a n : Nat} {e : ReqError} {s : Nat}
    (h : attempt k = .error e) (hc : classifyError e = .reauthThenRetry)
    (ha : auth a = .error s) :
    runRetryAux attempt auth k a (n + 1) = (.authFailed s, k + 1, a + 1) := by
  simp [runRetryAux, h, hc, ha]

/-- Exhaustion lemma: while every attempt keeps failing with a decision of
retry or reauthenticate-then-retry and every authentication round trip
succeeds, the loop burns exactly its fuel and surfaces exhaustion. -/
theorem runRetryAux_exhaust {α : Type} (attempt : Nat → Except ReqError α)
    (auth : Nat → Except Nat Unit)
    (hkeep : ∀ k, ∃ e, attempt k = .error e ∧
      (classifyError e = .retryNow ∨ classifyError e = .reauthThenRetry))
    (hauth : ∀ a, auth a = .ok ()) :
    ∀ n k a, (runRetryAux attempt auth k a n).1 = .retryExhausted ∧
      (runRetryAux attempt auth k a n).2.1 = k + n := by
  intro n
  induction n with
  | zero => intro k a; exact ⟨rfl, rfl⟩
  | succ m ih =>
    intro k a
    obtain ⟨e, he, hc⟩ := hkeep k
    cases hc with
    | inl hr =>
      rw [runRetryAux_retry he hr]
      refine ⟨(ih (k + 1) a).1, ?_⟩
      rw [(ih (k + 1) a).2]
      omega
    | inr hr =>
      rw [runRetryAux_reauth_ok he hr (hauth a)]
      refine ⟨(ih (k + 1) (a + 1)).1, ?_⟩
      rw [(ih (k + 1) (a + 1)).2]
      omega

/-! ## Sample environments used by the witnesses -/

/-- A request that fails once with a retryable 503 and then succeeds. -/
def sampleAttemptRetryable : Nat → Except ReqError Nat
  | 0 => .error (.http 503 false)
  | _ => .ok 7

/-- A request that fails twice with 401 and then succeeds. -/
def sampleAttempt401 : Nat → Except ReqError Nat
  | 0 => .error (.http 401 false)
  | 1 => .error (.http 401 false)
  | _ => .ok 5

/-- A request whose failing call targets an auth endpoint with a status that
would otherwise be retryable. -/
def sampleAttemptAuthTarget : Nat → Except ReqError Nat :=
  fun _ => .error (.http 503 true)

/-- A request that always fails with a retryable 503. -/
def sampleAttemptAlways503 : Nat → Except ReqError Nat :=
  fun _ => .error (.http 503 false)

/-- An authentication oracle that always succeeds. -/
def sampleAuthOk : Nat → Except Nat Unit := fun _ => .ok ()

/-- An authentication oracle that always fails with a 500. -/
def sampleAuthBad : Nat → Except Nat Unit := fun _ => .error 500

/-! ## Claims about the request executor -/

/-- Claim C2: a request failing with a status in the retryable allowlist or
with a transport-level error is re-invoked with no reauthentication (the loop
continues at the next attempt with the authentication counter untouched, and
succeeds when the second attempt succeeds, having consumed zero
authentication round trips), while a request failing with any other 4xx or
5xx status that is not 401 is never retried: the executor stops after the
single attempt with a non-retryable failure preserving the original error. -/
theorem retry_decision_table {α : Type} (attempt : Nat → Except ReqError α)
    (auth : Nat → Except Nat Unit) (n : Nat) :
    (∀ s, s ∈ retryableStatuses → attempt 0 = .error (.http s false) →
      runRetryAux attempt auth 0 0 (n + 1) = runRetryAux attempt auth 1 0 n) ∧
    (attempt 0 = .error (.transport false) →
      runRetryAux attempt auth 0 0 (n + 1) = runRetryAux attempt auth 1 0 n) ∧
    (∀ s (v : α), s ∈ retryableStatuses → attempt 0 = .error (.http s false) →
      attempt 1 = .ok v →
      runRetryAux attempt auth 0 0 (n + 2) = (.ok v, 2, 0)) ∧
    (∀ s, 400 ≤ s → s < 600 → s ∉ retryableStatuses → s ≠ 401 →
      attempt 0 = .error (.http s false) →
      runRetryAux attempt auth 0 0 (n + 1) =
        (.nonRetryable (.http s false), 1, 0)) := by
  refine ⟨?_, ?_, ?_, ?_⟩
  · intro s hs h0
    exact runRetryAux_retry h0 (classify_retryable hs)
  · intro h0
    exact runRetryAux_retry h0 rfl
  · intro s v hs h0 h1
    show runRetryAux attempt auth 0 0 (n + 1 + 1) = (.ok v, 2, 0)
    rw [runRetryAux_retry h0 (classify_retryable hs), runRetryAux_ok h1]
  · intro s _ _ hs h401 h0
    exact runRetryAux_fail h0 (classify_other hs h401)

/-- Witness for C2 at the concrete 503-then-success request. -/
theorem retry_decision_table_witness :
    runRetryAux sampleAttemptRetryable sampleAuthOk 0 0 2 = (.ok 7, 2, 0) :=
  (retry_decision_table sampleAttemptRetryable sampleAuthOk 0).2.2.1 503 7
    (by decide) rfl rfl

/-- Claim C3: a 401 on a non-auth-endpoint call triggers exactly one
reauthentication round trip before the request function is re-invoked (the
loop continues at attempt 1 with the authentication counter advanced to 1),
and a second sequential 401 within the same logical call reauthenticates
again (after two 401s the loop stands at attempt 2 with two authentication
round trips consumed). -/
theorem reauthenticate_then_retry_on_401 {α : Type}
    (attempt : Nat → Except ReqError α) (auth : Nat → Except Nat Unit)
    (n : Nat) :
    (attempt 0 = .error (.http 401 false) → auth 0 = .ok () →
      runRetryAux attempt auth 0 0 (n + 1) =
        runRetryAux attempt auth 1 1 n) ∧
    (attempt 0 = .error (.http 401 false) →
      attempt 1 = .error (.http 401 false) →
      auth 0 = .ok () → auth 1 = .ok () →
      runRetryAux attempt auth 0 0 (n + 2) =
        runRetryAux attempt auth 2 2 n) := by
  constructor
  · intro h0 ha
    exact runRetryAux_reauth_ok h0 rfl ha
  · intro h0 h1 ha0 ha1
    show runRetryAux attempt auth 0 0 (n + 1 + 1) = runRetryAux attempt auth 2 2 n
    rw [runRetryAux_reauth_ok h0 rfl ha0, runRetryAux_reauth_ok h1 rfl ha1]

/-- Witness for C3 at the concrete 401-twice request. -/
theorem reauthenticate_then_retry_on_401_witness :
    runRetryAux sampleAttempt401 sampleAuthOk 0 0 3 =
      runRetryAux sampleAttempt401 sampleAuthOk 2 2 1 :=
  (reauthenticate_then_retry_on_401 sampleAttempt401 sampleAuthOk 1).2
    rfl rfl rfl rfl

/-- Claim C4: when the failing call targeted an authentication endpoint the
executor fails immediately with that same error after the single attempt,
whatever the error kind or status (including statuses in the retryable
allowlist), with no reauthentication. -/
theorem auth_endpoint_errors_not_retried {α : Type}
    (attempt : Nat → Except ReqError α) (auth : Nat → Except Nat Unit)
    (n : Nat) (e : ReqError) (hauth : e.targetsAuthEndpoint = true)
    (h0 : attempt 0 = .error e) :
    runRetryAux attempt auth 0 0 (n + 1) = (.nonRetryable e, 1, 0) :=
  runRetryAux_fail h0 (classify_auth_endpoint e hauth)

/-- Witness for C4 at a 503 reply of the login endpoint. -/
theorem auth_endpoint_errors_not_retried_witness :
    runRetryAux sampleAttemptAuthTarget sampleAuthOk 0 0 4 =
      (.nonRetryable (.http 503 true), 1, 0) :=
  auth_endpoint_errors_not_retried sampleAttemptAuthTarget sampleAuthOk 3
    (.http 503 true) rfl rfl

/-- Claim C5: when a 401 triggers reauthentication and the authentication
round trip itself fails, that authentication failure is the executor outcome
in place of the original 401, after exactly one attempt of the original
request (it is not re-attempted for that failure). -/
theorem auth_failure_replaces_original_error {α : Type}
    (attempt : Nat → Except ReqError α) (auth : Nat → Except Nat Unit)
    (n s : Nat) (h0 : attempt 0 = .error (.http 401 false))
    (ha : auth 0 = .error s) :
    runRetryAux attempt auth 0 0 (n + 1) = (.authFailed s, 1, 1) :=
  runRetryAux_reauth_err h0 rfl ha

/-- Witness for C5 at a 401 request with a 500-failing authenticator. -/
theorem auth_failure_replaces_original_error_witness :
    runRetryAux sampleAttempt401 sampleAuthBad 0 0 5 = (.authFailed 500, 1, 1) :=
  auth_failure_replaces_original_error sampleAttempt401 sampleAuthBad 4 500
    rfl rfl

/-- Claim C9: while every attempt keeps being classified retry or
reauthenticate-then-retry (with successful reauthentications), the executor
stops once the configured attempt ceiling is consumed and surfaces the
distinct retry-exhausted outcome, having made exactly `ceiling` attempts —
the retry loop terminates against a persistently failing backend. -/
theorem retry_exhausted_at_ceiling {α : Type}
    (attempt : Nat → Except ReqError α) (auth : Nat → Except Nat Unit)
    (ceiling : Nat)
    (hkeep : ∀ k, ∃ e, attempt k = .error e ∧
      (classifyError e = .retryNow ∨ classifyError e = .reauthThenRetry))
    (hauth : ∀ a, auth a = .ok ()) :
    (makeRetryRequest attempt auth ceiling).1 = .retryExhausted ∧
    (makeRetryRequest attempt auth ceiling).2.1 = ceiling := by
  have h := runRetryAux_exhaust attempt auth hkeep hauth ceiling 0 0
  exact ⟨h.1, by rw [makeRetryRequest, h.2]; omega⟩

/-- Witness for C9 at the always-503 request with ceiling 3. -/
theorem retry_exhausted_at_ceiling_witness :
    (makeRetryRequest sampleAttemptAlways503 sampleAuthOk 3).1 =
      ExecResult.retryExhausted ∧
    (makeRetryRequest sampleAttemptAlways503 sampleAuthOk 3).2.1 = 3 :=
  retry_exhausted_at_ceiling sampleAttemptAlways503 sampleAuthOk 3
    (fun _ => ⟨.http 503 false, rfl, Or.inl rfl⟩) (fun _ => rfl)

/-! ## Claim about the claim type guard -/

/-- Claim C10: `readyToBeRegisteredOnchain` returns false on null, undefined
and every value whose typeof is not object, and on an object it returns true
exactly when the own keys include all five required property names — key
presence only, so the values bound to those keys are irrelevant. -/
theorem readyToBeRegisteredOnchain_key_presence :
    readyToBeRegisteredOnchain .jsNull = false ∧
    readyToBeRegisteredOnchain .jsUndefined = false ∧
    (∀ v : JsValue, jsTypeofIsObject v = false →
      readyToBeRegisteredOnchain v = false) ∧
    (∀ fields : List (String × JsValue),
      (readyToBeRegisteredOnchain (.jsObj fields) = true ↔
        ∀ p ∈ requiredOnchainProps, p ∈ jsKeys fields)) := by
  refine ⟨rfl, rfl, ?_, ?_⟩
  · intro v hv
    cases v with
    | jsNull => rfl
    | jsUndefined => rfl
    | jsBool b => cases b <;> rfl
    | jsNum n => simp [readyToBeRegisteredOnchain, jsFalsy, jsTypeofIsObject]
    | jsStr s => simp [readyToBeRegisteredOnchain, jsFalsy, jsTypeofIsObject]
    | jsObj fields => simp [jsTypeofIsObject] at hv
  · intro fields
    simp [readyToBeRegisteredOnchain, jsFalsy, jsTypeofIsObject,
      requiredOnchainProps, List.all_eq_true]

/-- The own properties of a claim object carrying all five required keys with
undefined values. -/
def sampleClaimFields : List (String × JsValue) :=
  [("claimType", .jsUndefined), ("claimTypeVersion", .jsUndefined),
   ("subject", .jsUndefined), ("onChainProof", .jsUndefined),
   ("acceptedBy", .jsUndefined)]

/-- Witness for C10: the all-keys-undefined object passes the guard and a
string input is rejected. -/
theorem readyToBeRegisteredOnchain_key_presence_witness :
    readyToBeRegisteredOnchain (.jsObj sampleClaimFields) = true ∧
    readyToBeRegisteredOnchain (.jsStr "claim") = false := by
  have h := readyToBeRegisteredOnchain_key_presence
  refine ⟨(h.2.2.2 sampleClaimFields).mpr ?_, h.2.2.1 (.jsStr "claim") rfl⟩
  simp [sampleClaimFields, requiredOnchainProps, jsKeys]

/-! ## Claims about the Authenticator -/

/-- A sample environment whose refresh endpoint rejects every token with a
500 and whose login endpoint succeeds. -/
def sampleEnvRefreshFails : AuthEnv :=
  { refreshReply := fun _ => .error 500,
    loginReply := .ok { token := "new-token", refreshToken := "new-refresh-token" },
    statusReply := .ok (some "did:ethr:0x1"),
    signerDid := "did:ethr:0x1" }

/-- A sample client state holding a stale refresh token. -/
def sampleStateWithRefresh : ClientState :=
  { accessToken := none, refresh_token := some "old-token" }

/-- A sample client state with no stored refresh token. -/
def sampleStateNoRefresh : ClientState :=
  { accessToken := none, refresh_token := none }

/-- Claim C6: with a refresh token in the store, `authenticate()` attempts
the refresh round trip first; when the refresh fails it always proceeds to a
login attempt (refresh then login, in that order) and the store still holds
the original refresh token at the moment login runs — a failed refresh never
clears it, so when login also fails the stored pair is unchanged; when the
refresh succeeds, login happens exactly when the status probe does not
authenticate the expected subject. -/
theorem authenticate_refresh_first_policy (env : AuthEnv) (st : ClientState)
    (rt : String) (h : st.refresh_token = some rt) :
    (∀ s, env.refreshReply rt = .error s →
      (authenticate env st).2.2 = [.refreshReq, .loginReq] ∧
      (∀ s2, env.loginReply = .error s2 → (authenticate env st).2.1 = st)) ∧
    (∀ t, env.refreshReply rt = .ok t → isAuthenticatedReply env = false →
      (authenticate env st).2.2 = [.refreshReq, .statusReq, .loginReq]) ∧
    (∀ t, env.refreshReply rt = .ok t → isAuthenticatedReply env = true →
      (authenticate env st).2.2 = [.refreshReq, .statusReq]) := by
  refine ⟨?_, ?_, ?_⟩
  · intro s hs
    constructor
    · cases hl : env.loginReply <;>
        simp [authenticate, h, hs, doLogin, hl]
    · intro s2 hl
      simp [authenticate, h, hs, doLogin, hl]
  · intro t ht hstat
    cases hl : env.loginReply <;>
      simp [authenticate, h, ht, hstat, doLogin, hl]
  · intro t ht hstat
    simp [authenticate, h, ht, hstat]

/-- Witness for C6 at the refresh-rejecting environment. -/
theorem authenticate_refresh_first_policy_witness :
    (authenticate sampleEnvRefreshFails sampleStateWithRefresh).2.2 =
      [NetCall.refreshReq, NetCall.loginReq] :=
  ((authenticate_refresh_first_policy sampleEnvRefreshFails
    sampleStateWithRefresh "old-token" rfl).1 500 rfl).1

/-- Claim C7: with no stored refresh token, `refreshToken()` resolves empty
making no network request at all, and `authenticate()` performs exactly the
login round trip, never touching the refresh endpoint. -/
theorem no_refresh_token_direct_login (env : AuthEnv) (st : ClientState)
    (h : st.refresh_token = none) :
    refreshToken env st = (.ok none, []) ∧
    (authenticate env st).2.2 = [.loginReq] := by
  constructor
  · simp [refreshToken, h]
  · cases hl : env.loginReply <;> simp [authenticate, h, doLogin, hl]

/-- Witness for C7 at the empty-store state. -/
theorem no_refresh_token_direct_login_witness :
    refreshToken sampleEnvRefreshFails sampleStateNoRefresh = (.ok none, []) ∧
    (authenticate sampleEnvRefreshFails sampleStateNoRefresh).2.2 =
      [NetCall.loginReq] :=
  no_refresh_token_direct_login sampleEnvRefreshFails sampleStateNoRefresh rfl

/-- Claim C8: `isAuthenticated()` makes exactly one status round trip and
returns true exactly when the reply identifies the Signer DID as the
authenticated user; on any other reply — another user, an empty identity, or
a non-success status — it returns false (being a total boolean, it never
propagates an error). -/
theorem isAuthenticated_matches_signer_did (env : AuthEnv) :
    ((isAuthenticated env).1 = true ↔
      env.statusReply = .ok (some env.signerDid)) ∧
    (isAuthenticated env).2 = [.statusReq] := by
  refine ⟨?_, rfl⟩
  cases hs : env.statusReply with
  | error s => simp [isAuthenticated, isAuthenticatedReply, hs]
  | ok u =>
    cases u with
    | none => simp [isAuthenticated, isAuthenticatedReply, hs]
    | some d => simp [isAuthenticated, isAuthenticatedReply, hs]

/-- Witness for C8 at the sample environment whose status reply names the
Signer DID. -/
theorem isAuthenticated_matches_signer_did_witness :
    (isAuthenticated sampleEnvRefreshFails).1 = true ∧
    (isAuthenticated sampleEnvRefreshFails).2 = [NetCall.statusReq] := by
  have h := isAuthenticated_matches_signer_did sampleEnvRefreshFails
  exact ⟨h.1.mpr rfl, h.2⟩

/-! ## Invariants of the single-flight machine -/

/-- Invariant holding while the shared authentication has not yet settled: no
request has been released yet, the in-progress marker implies exactly one
authentication round trip was started, and without it none was started and
nobody is subscribed. -/
def joinPhaseInv (s : SysState) : Prop :=
  (∀ ph ∈ s.reqs, ph = ReqPhase.begun ∨ ph = ReqPhase.gotUnauthorized ∨
    ph = ReqPhase.waiting) ∧
  (s.inFlight = true → s.authCount = 1) ∧
  (s.inFlight = false → s.authCount = 0 ∧ ∀ ph ∈ s.reqs, ph ≠ ReqPhase.waiting)

/-- Invariant holding after the shared authentication settled: no further
round trip can start, the counter is frozen at one, and every request is
released or finished. -/
def retireInv (s : SysState) : Prop :=
  s.inFlight = false ∧ s.authCount = 1 ∧
  ∀ ph ∈ s.reqs, ph = ReqPhase.readyRetry ∨ ph = ReqPhase.finished

theorem joinPhaseInv_init (n : Nat) : joinPhaseInv (initSys n) := by
  refine ⟨?_, ?_, ?_⟩
  · intro ph hph
    exact Or.inl (List.mem_replicate.mp hph).2
  · intro h
    simp [initSys] at h
  · intro _
    refine ⟨rfl, ?_⟩
    intro ph hph
    rw [(List.mem_replicate.mp hph).2]
    simp

theorem stepEvent_length {s s1 : SysState} {e : SysEvent}
    (h : stepEvent s e = some s1) : s1.reqs.length = s.reqs.length := by
  cases e with
  | authDone =>
    by_cases hf : s.inFlight
    · simp [stepEvent, stepAuthDone, hf] at h
      subst h
      simp [releaseWaiters]
    · simp [stepEvent, stepAuthDone, hf] at h
  | reqStep i =>
    simp only [stepEvent, stepReq] at h
    cases hget : s.reqs.get? i with
    | none => rw [hget] at h; exact absurd h (by simp)
    | some ph =>
      rw [hget] at h
      cases ph <;> simp at h
      · rw [← h]; exact List.length_set s.reqs i _
      · by_cases hf : s.inFlight <;> simp [hf] at h <;>
          (rw [← h]; exact List.length_set s.reqs i _)
      · rw [← h]; exact List.length_set s.reqs i _

theorem runEvents_length {evs : List SysEvent} :
    ∀ {s s1 : SysState}, runEvents s evs = some s1 →
      s1.reqs.length = s.reqs.length := by
  induction evs with
  | nil => intro s s1 h; cases h; rfl
  | cons e es ih =>
    intro s s1 h
    simp only [runEvents] at h
    cases hstep : stepEvent s e with
    | none => rw [hstep] at h; exact absurd h (by simp)
    | some s2 =>
      rw [hstep] at h
      rw [ih h, stepEvent_length hstep]

theorem joinPhaseInv_stepReq {s s1 : SysState} {i : Nat}
    (hinv : joinPhaseInv s) (h : stepReq s i = some s1) : joinPhaseInv s1 := by
  obtain ⟨hmem, hfly, hidle⟩ := hinv
  simp only [stepReq] at h
  cases hget : s.reqs.get? i with
  | none => rw [hget] at h; exact absurd h (by simp)
  | some ph =>
    rw [hget] at h
    have hph : ph ∈ s.reqs := List.get?_mem hget
    cases ph with
    | begun =>
      simp at h
      subst h
      refine ⟨?_, hfly, ?_⟩
      · intro q hq
        rcases List.mem_or_eq_of_mem_set hq with hq1 | hq1
        · exact hmem q hq1
        · exact Or.inr (Or.inl hq1)
      · intro hf
        refine ⟨(hidle hf).1, ?_⟩
        intro q hq
        rcases List.mem_or_eq_of_mem_set hq with hq1 | hq1
        · exact (hidle hf).2 q hq1
        · subst hq1; simp
    | gotUnauthorized =>
      by_cases hf : s.inFlight <;> simp [hf] at h <;> subst h
      · refine ⟨?_, fun _ => hfly hf, ?_⟩
        · intro q hq
          rcases List.mem_or_eq_of_mem_set hq with hq1 | hq1
          · exact hmem q hq1
          · exact Or.inr (Or.inr hq1)
        · intro hcon
          simp at hcon
      · refine ⟨?_, ?_, ?_⟩
        · intro q hq
          rcases List.mem_or_eq_of_mem_set hq with hq1 | hq1
          · exact hmem q hq1
          · exact Or.inr (Or.inr hq1)
        · intro _
          have : s.inFlight = false := by simpa using hf
          rw [(hidle this).1]
        · intro hcon
          simp at hcon
    | waiting => simp at h
    | readyRetry =>
      rcases hmem _ hph with hc | hc | hc <;> simp at hc
    | finished => simp at h

theorem joinPhaseInv_run {evs : List SysEvent} :
    ∀ {s s1 : SysState}, runEvents s evs = some s1 →
      SysEvent.authDone ∉ evs → joinPhaseInv s → joinPhaseInv s1 := by
  induction evs with
  | nil => intro s s1 h _ hinv; cases h; exact hinv
  | cons e es ih =>
    intro s s1 h hno hinv
    simp only [runEvents] at h
    cases hstep : stepEvent s e with
    | none => rw [hstep] at h; exact absurd h (by simp)
    | some s2 =>
      rw [hstep] at h
      have hnoe : e ≠ SysEvent.authDone := fun hc => hno (hc ▸ List.mem_cons_self e es)
      have hinv2 : joinPhaseInv s2 := by
        cases e with
        | authDone => exact absurd rfl hnoe
        | reqStep i => exact joinPhaseInv_stepReq hinv hstep
      exact ih h (fun hc => hno (List.mem_cons_of_mem e hc)) hinv2

theorem retireInv_step {s s1 : SysState} {e : SysEvent}
    (hinv : retireInv s) (h : stepEvent s e = some s1) : retireInv s1 := by
  obtain ⟨hf, hc, hmem⟩ := hinv
  cases e with
  | authDone =>
    simp [stepEvent, stepAuthDone, hf] at h
  | reqStep i =>
    simp only [stepEvent, stepReq] at h
    cases hget : s.reqs.get? i with
    | none => rw [hget] at h; exact absurd h (by simp)
    | some ph =>
      rw [hget] at h
      have hph : ph ∈ s.reqs := List.get?_mem hget
      cases ph with
      | begun => rcases hmem _ hph with hq | hq <;> simp at hq
      | gotUnauthorized => rcases hmem _ hph with hq | hq <;> simp at hq
      | waiting => simp at h
      | readyRetry =>
        simp at h
        subst h
        refine ⟨hf, hc, ?_⟩
        intro q hq
        rcases List.mem_or_eq_of_mem_set hq with hq1 | hq1
        · exact hmem q hq1
        · exact Or.inr hq1
      | finished => simp at h

theorem retireInv_run {evs : List SysEvent} :
    ∀ {s s1 : SysState}, runEvents s evs = some s1 → retireInv s → retireInv s1 := by
  induction evs with
  | nil => intro s s1 h hinv; cases h; exact hinv
  | cons e es ih =>
    intro s s1 h hinv
    simp only [runEvents] at h
    cases hstep : stepEvent s e with
    | none => rw [hstep] at h; exact absurd h (by simp)
    | some s2 =>
      rw [hstep] at h
      exact ih h (retireInv_step hinv hstep)

theorem runEvents_append (l1 l2 : List SysEvent) :
    ∀ s : SysState, runEvents s (l1 ++ l2) =
      (runEvents s l1).bind (fun s1 => runEvents s1 l2) := by
  induction l1 with
  | nil => intro s; rfl
  | cons e es ih =>
    intro s
    simp only [List.cons_append, runEvents]
    cases hstep : stepEvent s e with
    | none => rfl
    | some s2 => exact ih s2

/-- Claim C1: in the scenario where `n` concurrent logical requests (with
`n` positive) each receive a 401 on their first attempt and each subscribe to
the single-flight coordinator before any authentication settles (the
schedule prefix `evs1` contains no settlement and leaves every request
subscribed), exactly one authentication round trip has been started at that
point and exactly one ever occurs over the whole run; moreover every maximal
continuation finishes all `n` requests successfully using that single
settled outcome. -/
theorem single_flight_authentication (n : Nat) (evs1 evs2 : List SysEvent)
    (s1 s : SysState) (hn : 0 < n)
    (h1 : runEvents (initSys n) evs1 = some s1)
    (hno : SysEvent.authDone ∉ evs1)
    (hall : ∀ ph ∈ s1.reqs, ph = ReqPhase.waiting)
    (h2 : runEvents (initSys n) (evs1 ++ SysEvent.authDone :: evs2) = some s) :
    s.authCount = 1 ∧
    (noEventEnabled s = true → ∀ ph ∈ s.reqs, ph = ReqPhase.finished) := by
  have hinv1 : joinPhaseInv s1 := joinPhaseInv_run h1 hno (joinPhaseInv_init n)
  have hlen : s1.reqs.length = n := by
    rw [runEvents_length h1]
    simp [initSys]
  have hnonempty : ∃ ph, ph ∈ s1.reqs := by
    have hne : s1.reqs ≠ [] := by
      intro hc
      rw [hc] at hlen
      simp at hlen
      omega
    exact List.exists_mem_of_ne_nil s1.reqs hne
  obtain ⟨ph0, hph0⟩ := hnonempty
  have hwait : ph0 = ReqPhase.waiting := hall ph0 hph0
  have hfly : s1.inFlight = true := by
    by_contra hc
    have hc2 : s1.inFlight = false := by simpa using hc
    exact (hinv1.2.2 hc2).2 ph0 hph0 hwait
  have hcount : s1.authCount = 1 := hinv1.2.1 hfly
  have hrest : runEvents s1 (SysEvent.authDone :: evs2) = some s := by
    have := runEvents_append evs1 (SysEvent.authDone :: evs2) (initSys n)
    rw [h1] at this
    rw [h2] at this
    exact this.symm
  have hdone : stepAuthDone s1 =
      some ⟨releaseWaiters s1.reqs, false, s1.authCount⟩ := by
    simp [stepAuthDone, hfly]
  have hrun2 : runEvents ⟨releaseWaiters s1.reqs, false, s1.authCount⟩ evs2 =
      some s := by
    simp only [runEvents, stepEvent, hdone] at hrest
    exact hrest
  have hinv2 : retireInv ⟨releaseWaiters s1.reqs, false, s1.authCount⟩ := by
    refine ⟨rfl, hcount, ?_⟩
    intro q hq
    simp only [releaseWaiters, List.mem_map] at hq
    obtain ⟨p, hp, hpq⟩ := hq
    rw [hall p hp] at hpq
    simp at hpq
    exact Or.inl hpq.symm
  have hinvs : retireInv s := retireInv_run hrun2 hinv2
  refine ⟨hinvs.2.1, ?_⟩
  intro hmax q hq
  have hq2 := hinvs.2.2 q hq
  simp only [noEventEnabled, Bool.and_eq_true, List.all_eq_true] at hmax
  have hq3 := hmax.2 q hq
  rcases hq2 with hq2 | hq2
  · rw [hq2] at hq3; simp at hq3
  · exact hq2

/-- A schedule prefix in which two requests each take their 401 and then both
subscribe to the coordinator. -/
def sampleJoins : List SysEvent :=
  [.reqStep 0, .reqStep 1, .reqStep 0, .reqStep 1]

/-- A schedule suffix in which both released requests retry and finish. -/
def sampleFinish : List SysEvent := [.reqStep 0, .reqStep 1]

/-- Witness for C1: two concurrent requests, both 401 then joined, one
settlement, both finish, one authentication round trip started. -/
theorem single_flight_authentication_witness :
    (SysState.mk [ReqPhase.finished, ReqPhase.finished] false 1).authCount = 1 ∧
    (∀ ph ∈ (SysState.mk [ReqPhase.finished, ReqPhase.finished] false 1).reqs,
      ph = ReqPhase.finished) := by
  have h := single_flight_authentication 2 sampleJoins sampleFinish
    ⟨[ReqPhase.waiting, ReqPhase.waiting], true, 1⟩
    ⟨[ReqPhase.finished, ReqPhase.finished], false, 1⟩
    (by decide) (by decide) (by decide) (by decide) (by decide)
  exact ⟨h.1, h.2 (by decide)⟩

end IamClientLib
